import Mathlib

/-!
Shallow embedding of the fxos-certsuite orchestration engine
(`certsuite/harness.py` and
`certsuite/device_handler/adb_device_interface.py`).

Time model for `poll_wait`: predicate evaluation, the `after_first`
callback and bookkeeping are taken to cost zero wall-clock time, so the
only advance of the clock is the `time.sleep` at the end of each loop
iteration, which under this model always sleeps exactly
`polling_interval` (the clamp `max(..., 0)` never fires).  Times and
intervals are modelled as natural numbers (the Python floats are exact
in every configuration the program uses).
-/

namespace Certsuite

/-- Result of one `poll_wait` call (adb_device_interface.py, lines
443-462).  `ok = false` means the call raised `WaitTimeout`; otherwise
`ret` is the truthy value returned (the predicate is modelled as
returning a `Nat`, with `0` the falsy value, matching Python
truthiness for the values used).  `polls` counts predicate
evaluations, `after_first_calls` counts invocations of the optional
callback, `elapsed` is the wall-clock time at return/raise under the
zero-cost time model. -/
structure PollTrace where
  ok : Bool
  ret : Nat
  polls : Nat
  after_first_calls : Nat
  elapsed : Nat
deriving Repr, DecidableEq

/-- Number of iterations the `while current_time - start_time < timeout`
loop can run: under the zero-cost time model the clock at the top of
iteration `i` reads `i * polling_interval`, so the loop body runs
exactly for the `i` with `i * polling_interval < timeout`, i.e. for
`i < ⌈timeout / polling_interval⌉`. -/
def pollIters (polling_interval timeout : Nat) : Nat :=
  (timeout + polling_interval - 1) / polling_interval

/-- The loop of `poll_wait`, compiled with an explicit iteration
countdown (`fuel` starts at `pollIters`, and `fuel = pollIters - i`
throughout, so `fuel = 0` is exactly the loop condition failing).
State: `i` = iteration index (clock reads `i * polling_interval`),
`ran` = the `ran_first` flag, `af` = callback invocations so far. -/
def poll_loop (func : Nat → Nat) (polling_interval : Nat) (has_after_first : Bool) :
    Nat → Nat → Bool → Nat → PollTrace
  | 0, i, _, af => ⟨false, 0, i, af, i * polling_interval⟩
  | fuel + 1, i, ran, af =>
    let value := func i
    if value ≠ 0 then
      ⟨true, value, i + 1, af, i * polling_interval⟩
    else
      poll_loop func polling_interval has_after_first fuel (i + 1) true
        (if !ran && has_after_first then af + 1 else af)

/-- `poll_wait(func, polling_interval, timeout, after_first)`
(adb_device_interface.py, lines 443-462) under the zero-cost time
model.  `has_after_first` records whether an `after_first` callback
was supplied (`after_first is not None`). -/
def poll_wait (func : Nat → Nat) (polling_interval timeout : Nat)
    (has_after_first : Bool) : PollTrace :=
  poll_loop func polling_interval has_after_first
    (pollIters polling_interval timeout) 0 false 0

/-- The loop guard `current_time - start_time < timeout` at the top of
iteration `i` (clock `i * polling_interval`) holds exactly when
`i < pollIters polling_interval timeout`. -/
theorem lt_pollIters_iff (iv t i : Nat) (hiv : 0 < iv) :
    i < pollIters iv t ↔ i * iv < t := by
  unfold pollIters
  rw [Nat.lt_iff_add_one_le, Nat.le_div_iff_mul_le hiv, Nat.succ_mul]
  omega

/-- If the first truthy index reachable from state `i` is `i0` and the
fuel covers it, the loop returns the truthy value after `i0 + 1 - i`
further polls, with the callback fired once iff it had not run yet
and at least one poll from `i` failed. -/
theorem poll_loop_success (func : Nat → Nat) (iv : Nat) (haf : Bool)
    (i0 : Nat) (hi0 : func i0 ≠ 0) :
    ∀ fuel i ran af, (∀ j, i ≤ j → j < i0 → func j = 0) → i ≤ i0 → i0 < i + fuel →
    poll_loop func iv haf fuel i ran af =
      ⟨true, func i0, i0 + 1,
       if haf && !ran && decide (i < i0) then af + 1 else af, i0 * iv⟩ := by
  intro fuel
  induction fuel with
  | zero => intro i ran af _ _ hf; omega
  | succ n ih =>
    intro i ran af hz hle hf
    by_cases hii : i = i0
    · subst hii
      simp [poll_loop, hi0]
    · have hlt : i < i0 := lt_of_le_of_ne hle hii
      have hzi : func i = 0 := hz i le_rfl hlt
      rw [poll_loop]
      simp only [hzi, ne_eq, not_true_eq_false, reduceIte]
      rw [ih (i + 1) true _ (fun j hj1 hj2 => hz j (by omega) hj2) (by omega) (by omega)]
      cases ran <;> cases haf <;> simp [hlt]

/-- If every poll in the fuel window fails, the loop exhausts the fuel
and raises `WaitTimeout` at clock `(i + fuel) * polling_interval`. -/
theorem poll_loop_timeout (func : Nat → Nat) (iv : Nat) (haf : Bool) :
    ∀ fuel i ran af, (∀ j, i ≤ j → j < i + fuel → func j = 0) →
    poll_loop func iv haf fuel i ran af =
      ⟨false, 0, i + fuel,
       if haf && !ran && decide (0 < fuel) then af + 1 else af, (i + fuel) * iv⟩ := by
  intro fuel
  induction fuel with
  | zero => intro i ran af _; simp [poll_loop]
  | succ n ih =>
    intro i ran af hz
    have hzi : func i = 0 := hz i le_rfl (by omega)
    rw [poll_loop]
    simp only [hzi, ne_eq, not_true_eq_false, reduceIte]
    rw [ih (i + 1) true _ (fun j hj1 hj2 => hz j (by omega) (by omega))]
    have harith : i + 1 + n = i + (n + 1) := by omega
    rw [harith]
    cases ran <;> cases haf <;> cases n <;> simp

/-- Outcome of invoking one precondition check: it returns a truthy
value (`ok`), returns a falsy value (`fail`), or raises an exception
(`raise`). -/
inductive CheckOutcome
  | ok
  | fail
  | raise
deriving Repr, DecidableEq

/-- `check_preconditions(config)` from harness.py (lines 284-300).
The four checks `check_adb`, `install_marionette(version)`,
`check_network`, `check_server` are abstracted by their outcomes, in
loop order.  Per check: `try: passed = precondition()` with a bare
`except` setting `passed = False`; `if not passed: sys.exit(1)`.
After the loop the source logs "Passed precondition checks" and then
executes `sys.exit(1)` unconditionally.  Result: `some c` models
`sys.exit(c)`, `none` models returning to the caller. -/
def harness_check_preconditions : List CheckOutcome → Option Nat
  | [] => some 1
  | o :: rest =>
    match o with
    | CheckOutcome.ok => harness_check_preconditions rest
    | CheckOutcome.fail => some 1
    | CheckOutcome.raise => some 1

/-- The five checks of `ADBDeviceInterface.check_preconditions`
(adb_device_interface.py, lines 162-175), in the order of the
short-circuit conjunction on line 166. -/
inductive Chk
  | root
  | marionette
  | settings
  | network
  | server
deriving Repr, DecidableEq

/-- A device session, abstracted by the outcome of each precondition
check when invoked on it. -/
structure Session where
  root_ok : CheckOutcome
  marionette_ok : CheckOutcome
  settings_ok : CheckOutcome
  network_ok : CheckOutcome
  server_ok : CheckOutcome
deriving Repr, DecidableEq

/-- Left-to-right evaluation of the Python `and`-chain
`check_root() and install_marionette(...) and ensure_settings() and
check_network() and check_server()`: returns the list of checks that
were actually invoked and `some b` for a normal value `b`, `none` when
an exception escaped the chain (to be caught by the surrounding
`except`). -/
def evalConj : List (Chk × CheckOutcome) → List Chk × Option Bool
  | [] => ([], some true)
  | (c, o) :: rest =>
    match o with
    | CheckOutcome.ok =>
      let r := evalConj rest
      (c :: r.1, r.2)
    | CheckOutcome.fail => ([c], some false)
    | CheckOutcome.raise => ([c], none)

/-- Result of `ADBDeviceInterface.check_preconditions`: which checks
ran, how many `self.device.reboot()` calls were issued, and `some c`
for `sys.exit(c)` / `none` for returning `True` to the caller. -/
structure PipelineResult where
  evaluated : List Chk
  reboots : Nat
  exitCode : Option Nat
deriving Repr, DecidableEq

/-- The ordered check list of the conjunction on line 166. -/
def sessionChecks (σ : Session) : List (Chk × CheckOutcome) :=
  [(Chk.root, σ.root_ok), (Chk.marionette, σ.marionette_ok),
   (Chk.settings, σ.settings_ok), (Chk.network, σ.network_ok),
   (Chk.server, σ.server_ok)]

/-- `ADBDeviceInterface.check_preconditions(self)`
(adb_device_interface.py, lines 162-175): evaluate the short-circuit
conjunction inside `try`; a raised exception is caught and treated as
`passed = False`; `if not passed: self.device.reboot(); sys.exit(1)`;
otherwise log success and return `True`. -/
def adb_check_preconditions (σ : Session) : PipelineResult :=
  let r := evalConj (sessionChecks σ)
  let passed := match r.2 with
    | some b => b
    | none => false
  if passed then ⟨r.1, 0, none⟩ else ⟨r.1, 1, some 1⟩

/-- C4 (counterexample): the claim says the `after_first` callback,
when supplied, is invoked exactly once whenever the predicate becomes
truthy within `N` poll intervals.  With the default interval `1` and
timeout `30` and a predicate truthy on the very first evaluation,
`poll_wait` returns successfully after one poll but invokes the
callback zero times (the callback only runs after a *failed* poll), so
"exactly once" is false. -/
theorem C4_poll_wait_counterexample :
    (Certsuite.poll_wait (fun _ => 1) 1 30 true).ok = true ∧
    (Certsuite.poll_wait (fun _ => 1) 1 30 true).polls = 1 ∧
    (Certsuite.poll_wait (fun _ => 1) 1 30 true).after_first_calls = 0 := by
  decide

/-- C4 (amended): if the predicate is falsy before index `i0`, truthy at
`i0`, `i0 ≤ N`, and the `i0`-th evaluation happens before the timeout
elapses, then `poll_wait` returns successfully having evaluated the
predicate `i0 + 1 ≤ N + 1` times and having invoked the `after_first`
callback (when one is supplied) at most once: exactly once when the
first evaluation failed (`0 < i0`), and zero times when the predicate
was already truthy at the first evaluation. -/
theorem C4_poll_wait_success (func : Nat → Nat) (iv t N i0 : Nat) (haf : Bool)
    (hiv : 0 < iv) (hN : i0 ≤ N) (hz : ∀ j, j < i0 → func j = 0)
    (hi0 : func i0 ≠ 0) (hwin : i0 * iv < t) :
    (Certsuite.poll_wait func iv t haf).ok = true ∧
    (Certsuite.poll_wait func iv t haf).polls = i0 + 1 ∧
    (Certsuite.poll_wait func iv t haf).polls ≤ N + 1 ∧
    (Certsuite.poll_wait func iv t haf).after_first_calls
      = (if haf && decide (0 < i0) then 1 else 0) := by
  have hfuel : i0 < 0 + Certsuite.pollIters iv t := by
    have := (Certsuite.lt_pollIters_iff iv t i0 hiv).mpr hwin
    omega
  unfold Certsuite.poll_wait
  rw [Certsuite.poll_loop_success func iv haf i0 hi0 _ 0 false 0
        (fun j _ hj => hz j hj) (Nat.zero_le _) hfuel]
  refine ⟨rfl, rfl, by simp only [Certsuite.PollTrace.polls]; omega, by simp⟩

/-- C4 (witness): concrete instance of the amended claim with interval
1, timeout 30, predicate truthy first at index 2, callback supplied. -/
theorem C4_poll_wait_success_witness :
    (Certsuite.poll_wait (fun j => if j = 2 then 5 else 0) 1 30 true).ok = true ∧
    (Certsuite.poll_wait (fun j => if j = 2 then 5 else 0) 1 30 true).polls = 2 + 1 ∧
    (Certsuite.poll_wait (fun j => if j = 2 then 5 else 0) 1 30 true).polls ≤ 2 + 1 ∧
    (Certsuite.poll_wait (fun j => if j = 2 then 5 else 0) 1 30 true).after_first_calls
      = (if true && decide (0 < 2) then 1 else 0) :=
  C4_poll_wait_success (fun j => if j = 2 then 5 else 0) 1 30 2 2 true
    (by decide) (by decide)
    (fun j hj => by show (if j = 2 then 5 else 0) = 0; rw [if_neg (by omega)])
    (by decide) (by decide)

/-- C5: `poll_wait` raises `WaitTimeout` if and only if the predicate
is falsy at every evaluation that happens before the timeout elapses
(i.e. at every index `i` with `i * polling_interval < timeout`);
otherwise it returns the truthy value (the value of the last poll,
which is nonzero).  When it raises, the elapsed wall-clock time is at
least `timeout` and less than `timeout + polling_interval`. -/
theorem C5_poll_wait_timeout_iff (func : Nat → Nat) (iv t : Nat) (haf : Bool)
    (hiv : 0 < iv) :
    ((Certsuite.poll_wait func iv t haf).ok = false ↔
      ∀ i, i * iv < t → func i = 0) ∧
    ((Certsuite.poll_wait func iv t haf).ok = false →
      t ≤ (Certsuite.poll_wait func iv t haf).elapsed ∧
      (Certsuite.poll_wait func iv t haf).elapsed < t + iv) ∧
    ((Certsuite.poll_wait func iv t haf).ok = true →
      (Certsuite.poll_wait func iv t haf).ret
        = func ((Certsuite.poll_wait func iv t haf).polls - 1) ∧
      (Certsuite.poll_wait func iv t haf).ret ≠ 0) := by
  by_cases hall : ∀ i, i * iv < t → func i = 0
  · have hz : ∀ j, 0 ≤ j → j < 0 + Certsuite.pollIters iv t → func j = 0 := by
      intro j _ hj
      exact hall j ((Certsuite.lt_pollIters_iff iv t j hiv).mp (by omega))
    have hres : Certsuite.poll_wait func iv t haf =
        ⟨false, 0, 0 + Certsuite.pollIters iv t,
         if haf && !false && decide (0 < Certsuite.pollIters iv t) then 0 + 1 else 0,
         (0 + Certsuite.pollIters iv t) * iv⟩ :=
      Certsuite.poll_loop_timeout func iv haf _ 0 false 0 hz
    rw [hres]
    have hge : t ≤ Certsuite.pollIters iv t * iv := by
      by_contra hc
      have := (Certsuite.lt_pollIters_iff iv t (Certsuite.pollIters iv t) hiv).mpr
        (by omega)
      omega
    have hlt : Certsuite.pollIters iv t * iv < t + iv := by
      rcases Nat.eq_zero_or_pos (Certsuite.pollIters iv t) with h0 | hpos
      · rw [h0]; omega
      · obtain ⟨m, hm⟩ := Nat.exists_eq_succ_of_ne_zero (Nat.pos_iff_ne_zero.mp hpos)
        have hmlt : m * iv < t :=
          (Certsuite.lt_pollIters_iff iv t m hiv).mp (by omega)
        rw [hm, Nat.succ_mul]
        omega
    refine ⟨by simpa using hall, fun _ => by simpa using ⟨hge, hlt⟩, by simp⟩
  · have hex : ∃ j, func j ≠ 0 := by
      push_neg at hall
      obtain ⟨i, hi1, hi2⟩ := hall
      exact ⟨i, hi2⟩
    set i0 := Nat.find hex with hi0def
    have hi0 : func i0 ≠ 0 := Nat.find_spec hex
    obtain ⟨i, hi1, hi2⟩ := by push_neg at hall; exact hall
    have hle : i0 ≤ i := Nat.find_min' hex hi2
    have hwin : i0 * iv < t :=
      lt_of_le_of_lt (Nat.mul_le_mul_right iv hle) hi1
    have hzmin : ∀ j, 0 ≤ j → j < i0 → func j = 0 := by
      intro j _ hj
      have := Nat.find_min hex hj
      simpa using this
    have hfuel : i0 < 0 + Certsuite.pollIters iv t := by
      have := (Certsuite.lt_pollIters_iff iv t i0 hiv).mpr hwin
      omega
    have hres : Certsuite.poll_wait func iv t haf =
        ⟨true, func i0, i0 + 1,
         if haf && !false && decide (0 < i0) then 0 + 1 else 0, i0 * iv⟩ :=
      Certsuite.poll_loop_success func iv haf i0 hi0 _ 0 false 0 hzmin
        (Nat.zero_le _) hfuel
    rw [hres]
    refine ⟨?_, by simp, fun _ => by simpa using hi0⟩
    simp only [Bool.true_eq_false, false_iff]
    intro hc
    exact hi0 (hc i0 hwin)

/-- C5 (witness): concrete timeout instance, predicate never truthy,
interval 2, timeout 5. -/
theorem C5_poll_wait_timeout_iff_witness :
    ((Certsuite.poll_wait (fun _ => 0) 2 5 false).ok = false ↔
      ∀ i, i * 2 < 5 → (fun _ : Nat => 0) i = 0) ∧
    ((Certsuite.poll_wait (fun _ => 0) 2 5 false).ok = false →
      5 ≤ (Certsuite.poll_wait (fun _ => 0) 2 5 false).elapsed ∧
      (Certsuite.poll_wait (fun _ => 0) 2 5 false).elapsed < 5 + 2) ∧
    ((Certsuite.poll_wait (fun _ => 0) 2 5 false).ok = true →
      (Certsuite.poll_wait (fun _ => 0) 2 5 false).ret
        = (fun _ : Nat => 0) ((Certsuite.poll_wait (fun _ => 0) 2 5 false).polls - 1) ∧
      (Certsuite.poll_wait (fun _ => 0) 2 5 false).ret ≠ 0) :=
  C5_poll_wait_timeout_iff (fun _ => 0) 2 5 false (by decide)

/-- Python exception classes relevant to the suite loop of
`run_tests` (harness.py lines 419-455). -/
inductive PyExc
  | generic
  | keyboardInterrupt
  | systemExit
deriving Repr, DecidableEq

/-- Outcome of one `runner.run_suite(suite, groups, log_manager)`
call: it returns normally or raises an exception. -/
inductive SuiteOutcome
  | passes
  | raises (e : PyExc)
deriving Repr, DecidableEq

/-- Observable events of one `run_tests` call. `runSuiteEv` is emitted
when `runner.run_suite` is invoked for a suite (whatever its outcome);
`restoreEv` when `device.restore()` runs in the loop's `finally`;
`rmtreeEv` when `DeviceBackup.__exit__` deletes the staging directory
(harness.py lines 162-163); `zipFinalizeEv` when `LogManager.__exit__`
reaches `self.zip_file.__exit__` — its nested `try/finally` (lines
121-130) guarantees that statement runs exactly once whenever
`__exit__` is entered. -/
inductive Ev
  | runSuiteEv (name : String)
  | restoreEv
  | rmtreeEv
  | zipFinalizeEv
deriving Repr, DecidableEq

/-- The suite loop of `run_tests` (harness.py lines 434-441): for each
suite, `try: runner.run_suite(...)` — the bare `except:` catches every
exception (including `KeyboardInterrupt` and `SystemExit`) and sets
`error = True` — and the `finally:` always runs `device.restore()`.
Returns the event trace and the `error` flag. -/
def suite_loop (suites : List (String × SuiteOutcome)) : List Ev × Bool :=
  suites.foldl
    (fun acc s =>
      (acc.1 ++ [Ev.runSuiteEv s.1, Ev.restoreEv],
       acc.2 || (match s.2 with
                 | SuiteOutcome.passes => false
                 | SuiteOutcome.raises _ => true)))
    ([], false)

/-- `run_tests(args, config)` (harness.py lines 419-455), abstracted
over the behaviour of its callees: `pre` is the result of the
`check_preconditions(config)` call (`some c` = it raised
`SystemExit(c)`, `none` = it returned), and each suite is abstracted
by the outcome of its `run_suite` call.  The `with LogManager()` and
`with DeviceBackup()` statements run their `__exit__` on every exit of
their bodies, including exceptional ones; a `SystemExit` from the
precondition check propagates through both `with` blocks and is
re-raised by `except (SystemExit, KeyboardInterrupt): raise` (lines
446-447).  Returns the event trace and the process exit code
(`return int(error)`, or the propagated `SystemExit` code). -/
def run_tests (pre : Option Nat) (suites : List (String × SuiteOutcome)) :
    List Ev × Nat :=
  match pre with
  | some c => ([Ev.zipFinalizeEv], c)
  | none =>
    let r := suite_loop suites
    (r.1 ++ [Ev.rmtreeEv, Ev.zipFinalizeEv], if r.2 then 1 else 0)

/-- The events emitted by the suite loop, in closed form. -/
theorem suite_loop_events (suites : List (String × SuiteOutcome)) :
    ∀ acc : List Ev × Bool,
    (suites.foldl
      (fun acc s =>
        (acc.1 ++ [Ev.runSuiteEv s.1, Ev.restoreEv],
         acc.2 || (match s.2 with
                   | SuiteOutcome.passes => false
                   | SuiteOutcome.raises _ => true)))
      acc).1
      = acc.1 ++ suites.flatMap (fun s => [Ev.runSuiteEv s.1, Ev.restoreEv]) := by
  induction suites with
  | nil => intro acc; simp
  | cons s rest ih =>
    intro acc
    rw [List.foldl_cons, ih]
    simp

/-- The error flag of the suite loop is true iff some suite raised. -/
theorem suite_loop_error (suites : List (String × SuiteOutcome)) :
    ∀ acc : List Ev × Bool,
    (suites.foldl
      (fun acc s =>
        (acc.1 ++ [Ev.runSuiteEv s.1, Ev.restoreEv],
         acc.2 || (match s.2 with
                   | SuiteOutcome.passes => false
                   | SuiteOutcome.raises _ => true)))
      acc).2
      = (acc.2 || suites.any (fun s => match s.2 with
                   | SuiteOutcome.passes => false
                   | SuiteOutcome.raises _ => true)) := by
  induction suites with
  | nil => intro acc; simp
  | cons s rest ih =>
    intro acc
    rw [List.foldl_cons, ih]
    simp [Bool.or_assoc]

/-- Event trace of the suite loop in closed form. -/
theorem suite_loop_fst (suites : List (String × SuiteOutcome)) :
    (suite_loop suites).1
      = suites.flatMap (fun s => [Ev.runSuiteEv s.1, Ev.restoreEv]) := by
  simpa using suite_loop_events suites ([], false)

/-- Error flag of the suite loop in closed form. -/
theorem suite_loop_snd (suites : List (String × SuiteOutcome)) :
    (suite_loop suites).2
      = suites.any (fun s => match s.2 with
          | SuiteOutcome.passes => false
          | SuiteOutcome.raises _ => true) := by
  simpa using suite_loop_error suites ([], false)

/-- The loop emits one `restoreEv` per suite. -/
theorem count_restore_flatMap (suites : List (String × SuiteOutcome)) :
    (suites.flatMap fun s => [Ev.runSuiteEv s.1, Ev.restoreEv]).count Ev.restoreEv
      = suites.length := by
  induction suites with
  | nil => simp
  | cons s rest ih => simp [List.count_cons, ih]

/-- The loop emits no `rmtreeEv` and no `zipFinalizeEv`. -/
theorem count_cleanup_flatMap (suites : List (String × SuiteOutcome)) :
    (suites.flatMap fun s => [Ev.runSuiteEv s.1, Ev.restoreEv]).count Ev.rmtreeEv = 0 ∧
    (suites.flatMap fun s => [Ev.runSuiteEv s.1, Ev.restoreEv]).count Ev.zipFinalizeEv
      = 0 := by
  induction suites with
  | nil => simp
  | cons s rest ih => simp [List.count_cons, ih]

/-- Device-control operations issued by `DeviceBackup.restore`.
`rmFile`/`pushFile` act on a single file; `rmDirRec`/`pushDir` act
recursively on a directory tree; `rebootDev true` is
`device.reboot(wait=True)`. -/
inductive DevOp
  | remount
  | rmFile (remote : String)
  | pushFile (local_path remote : String)
  | rmDirRec (remote : String)
  | pushDir (local_path remote : String)
  | rebootDev (wait : Bool)
deriving Repr, DecidableEq

/-- `remote.lstrip("/")`: strip every leading slash. -/
def lstripSlash (s : String) : String :=
  String.mk (s.data.dropWhile (fun c => c = '/'))

/-- `self.local_dir(remote)` = `os.path.join(self.backup_path,
remote.lstrip("/"))` (harness.py lines 139-140 and
adb_device_interface.py lines 377-378).  The staged path is relative
after the lstrip, so `os.path.join` concatenates with a separator. -/
def local_dir (backup_path remote : String) : String :=
  backup_path ++ "/" ++ lstripSlash remote

/-- `remote_path.rsplit("/", 1)`: split at the last slash into
(directory, filename).  The backup file paths of this program always
contain a slash; for a slash-free input we return an empty directory
(in Python the two-name unpacking would raise instead, a case no
caller exercises). -/
def rsplitSlash (s : String) : String × String :=
  let r := s.data.reverse
  let fname := r.takeWhile (fun c => c ≠ '/')
  match r.dropWhile (fun c => c ≠ '/') with
  | [] => ("", String.mk fname.reverse)
  | _ :: ds => (String.mk ds.reverse, String.mk fname.reverse)

/-- `DeviceBackup.restore` from harness.py (lines 165-180): remount;
for each backed-up file remove the live copy and push the staged copy;
then for each backed-up directory remove the live tree and push the
staged tree; finally `self.device.reboot(wait=True)`. -/
def harness_restore (backup_path : String)
    (backup_files backup_dirs : List String) : List DevOp :=
  [DevOp.remount]
  ++ backup_files.flatMap (fun remote =>
       let p := rsplitSlash remote
       [DevOp.rmFile remote,
        DevOp.pushFile (local_dir backup_path p.1 ++ "/" ++ p.2) remote])
  ++ backup_dirs.flatMap (fun remote =>
       [DevOp.rmDirRec remote,
        DevOp.pushDir (local_dir backup_path remote) remote])
  ++ [DevOp.rebootDev true]

/-- `DeviceBackup.restore` from adb_device_interface.py (lines
407-420): identical to the harness.py variant except that it issues no
reboot at the end. -/
def adb_restore (backup_path : String)
    (backup_files backup_dirs : List String) : List DevOp :=
  [DevOp.remount]
  ++ backup_files.flatMap (fun remote =>
       let p := rsplitSlash remote
       [DevOp.rmFile remote,
        DevOp.pushFile (local_dir backup_path p.1 ++ "/" ++ p.2) remote])
  ++ backup_dirs.flatMap (fun remote =>
       [DevOp.rmDirRec remote,
        DevOp.pushDir (local_dir backup_path remote) remote])

/-- An operation restoring a single backed-up file. -/
def isFileRestoreOp : DevOp → Prop
  | DevOp.rmFile _ => True
  | DevOp.pushFile _ _ => True
  | _ => False

/-- An operation restoring a backed-up directory tree. -/
def isDirRestoreOp : DevOp → Prop
  | DevOp.rmDirRec _ => True
  | DevOp.pushDir _ _ => True
  | _ => False

/-- Parser state for Python `%`-style mapping interpolation restricted
to `%(name)s` specifiers — the only form the program's configuration
templates use. -/
inductive SubstState
  | plain
  | afterPct
  | inKey (acc : List Char)
  | afterKey (key : List Char)
deriving Repr, DecidableEq

/-- One-pass interpolation of `template % subn` over the characters of
the template: a `%(name)s` specifier is replaced by `subn name`;
a missing key or a specifier form other than `%(name)s` yields `none`
(Python raises `KeyError`/`ValueError` there, which `run_test` treats
as fatal to that suite only). -/
def pctSubstAux (subn : String → Option String) :
    SubstState → List Char → Option (List Char)
  | SubstState.plain, [] => some []
  | SubstState.plain, '%' :: rest => pctSubstAux subn SubstState.afterPct rest
  | SubstState.plain, c :: rest =>
    (pctSubstAux subn SubstState.plain rest).map (fun t => c :: t)
  | SubstState.afterPct, '(' :: rest =>
    pctSubstAux subn (SubstState.inKey []) rest
  | SubstState.afterPct, _ => none
  | SubstState.inKey acc, ')' :: rest =>
    pctSubstAux subn (SubstState.afterKey acc.reverse) rest
  | SubstState.inKey acc, c :: rest =>
    pctSubstAux subn (SubstState.inKey (c :: acc)) rest
  | SubstState.inKey _, [] => none
  | SubstState.afterKey key, 's' :: rest =>
    match subn (String.mk key) with
    | some v => (pctSubstAux subn SubstState.plain rest).map (fun t => v.data ++ t)
    | none => none
  | SubstState.afterKey _, _ => none

/-- `item % subn` for a template string `item`. -/
def pctSubst (subn : String → Option String) (s : String) : Option String :=
  (pctSubstAux subn SubstState.plain s.data).map String.mk

/-- `item.replace("/", "-")`: the pattern is the single character `/`,
so occurrence replacement is a character map. -/
def replaceSlashes (s : String) : String :=
  String.mk (s.data.map (fun c => if c = '/' then '-' else c))

/-- `[f(item) for item in items]` where `f` may raise (modelled by
`none`): items are processed left to right and the first failure
aborts the whole comprehension. -/
def mapMOpt (f : String → Option String) : List String → Option (List String)
  | [] => some []
  | x :: xs =>
    match f x with
    | some v => (mapMOpt f xs).map (fun vs => v :: vs)
    | none => none

/-- Declarative suite definition (one entry of the config's `suites`
mapping): executable, run-time argument templates, common argument
templates, extra output-file templates. -/
structure SuiteOpts where
  cmd : String
  run_args : List String
  common_args : List String
  extra_files : List String
deriving Repr, DecidableEq

/-- `TestRunner.build_command(self, suite, groups, temp_dir)`
(harness.py lines 253-275).  `config` is the run's shared
configuration as a key/value mapping (its non-`suites` entries, in the
stringified form `%`-interpolation sees them); per the source, `subn`
is the config minus its `suites` entry, updated with `temp_dir`.
Returns `some (cmd, output_files, log_name)`, or `none` when a
template interpolation fails. -/
def build_command (config : List (String × String)) (suite : String)
    (suite_opts : SuiteOpts) (groups : List String) (temp_dir : String) :
    Option (List String × List String × String) := do
  let subn : String → Option String := fun k =>
    if k = "temp_dir" then some temp_dir
    else if k = "suites" then none
    else (config.find? (fun p => p.1 = k)).map (fun p => p.2)
  let log_name := temp_dir ++ "/" ++ suite ++ "_structured"
      ++ String.intercalate "_" (groups.map replaceSlashes) ++ ".log"
  let cmd := [suite_opts.cmd] ++ ["--log-raw=" ++ log_name, "--log-mach=-"]
      ++ (if groups.isEmpty then [] else groups.map (fun g => "--include=" ++ g))
  let run_args ← mapMOpt (pctSubst subn) suite_opts.run_args
  let common_args ← mapMOpt (pctSubst subn) suite_opts.common_args
  let extra ← mapMOpt (pctSubst subn) suite_opts.extra_files
  return (cmd ++ run_args ++ common_args, [log_name] ++ extra, log_name)

/-- Outcome of the device-side probe
`self.device.shell_output("curl http://host:port")` in
`ADBDeviceInterface.check_server`: success, `ADBError` whose message
contains `curl: not found`, or any other `ADBError`. -/
inductive CurlOutcome
  | ok
  | curlNotFound
  | otherError
deriving Repr, DecidableEq

/-- Environment of one `check_server` call: whether
`wptserve.WebTestHttpd(host, port).start()` succeeds on a given port,
and what the device-side curl probe does on that port. -/
structure ServerEnv where
  start_ok : Nat → Bool
  curl : Nat → CurlOutcome

/-- Events observable during `check_server`. -/
inductive SrvEv
  | serverStarted (port : Nat)
  | deviceCurl (port : Nat)
  | serverStopped (port : Nat)
deriving Repr, DecidableEq

/-- The `for port in [8000, 8001]` loop of
`ADBDeviceInterface.check_server` (adb_device_interface.py, lines
138-160): if starting the local server raises, log and `return False`
at once; otherwise curl from the device inside `try/finally` (the
`finally` always stops the server): on success continue with the next
port, on a `curl: not found` error warn and `break` (falling through
to the final `return True`), on any other `ADBError` `return False`.
The harness.py variant (lines 392-408) has the same
start-failure-returns-False structure. -/
def check_server_loop (env : ServerEnv) : List Nat → List SrvEv × Bool
  | [] => ([], true)
  | p :: rest =>
    if env.start_ok p then
      match env.curl p with
      | CurlOutcome.ok =>
        let r := check_server_loop env rest
        (SrvEv.serverStarted p :: SrvEv.deviceCurl p :: SrvEv.serverStopped p :: r.1,
         r.2)
      | CurlOutcome.curlNotFound =>
        ([SrvEv.serverStarted p, SrvEv.deviceCurl p, SrvEv.serverStopped p], true)
      | CurlOutcome.otherError =>
        ([SrvEv.serverStarted p, SrvEv.deviceCurl p, SrvEv.serverStopped p], false)
    else ([], false)

/-- `ADBDeviceInterface.check_server(self)` over the two trial
ports. -/
def check_server (env : ServerEnv) : List SrvEv × Bool :=
  check_server_loop env [8000, 8001]

/-- C1 (code evaluated at the failing input): even when all four
precondition checks return `True`, `check_preconditions` in harness.py
executes `sys.exit(1)` (line 300, directly after logging "Passed
precondition checks"), so control never returns to `run_tests`, no
suite runs, and the process exit code is 1 — contradicting the claim
that the exit code is 0 when every suite passes.  Indeed the function
exits on every input. -/
theorem C1_harness_check_preconditions_always_exits :
    Certsuite.harness_check_preconditions
      [Certsuite.CheckOutcome.ok, Certsuite.CheckOutcome.ok,
       Certsuite.CheckOutcome.ok, Certsuite.CheckOutcome.ok] = some 1 ∧
    ∀ outcomes, Certsuite.harness_check_preconditions outcomes ≠ none := by
  refine ⟨by decide, ?_⟩
  intro outcomes
  induction outcomes with
  | nil => simp [Certsuite.harness_check_preconditions]
  | cons o rest ih =>
    cases o <;> simp [Certsuite.harness_check_preconditions, ih]

/-- C6: if the root-access check fails (returns `False` or raises),
`ADBDeviceInterface.check_preconditions` evaluates no later check
(short-circuit `and` on line 166), issues exactly one
`self.device.reboot()`, and terminates with `sys.exit(1)`; moreover
the pipeline returns control to the caller only when every one of the
five checks returned truthy, so no precondition failure ever lets the
suite loop start. -/
theorem C6_root_failure_stops_pipeline (σ : Certsuite.Session)
    (h : σ.root_ok ≠ Certsuite.CheckOutcome.ok) :
    (Certsuite.adb_check_preconditions σ).evaluated = [Certsuite.Chk.root] ∧
    (Certsuite.adb_check_preconditions σ).reboots = 1 ∧
    (Certsuite.adb_check_preconditions σ).exitCode = some 1 ∧
    ∀ τ : Certsuite.Session,
      (Certsuite.adb_check_preconditions τ).exitCode = none →
      τ.root_ok = Certsuite.CheckOutcome.ok ∧
      τ.marionette_ok = Certsuite.CheckOutcome.ok ∧
      τ.settings_ok = Certsuite.CheckOutcome.ok ∧
      τ.network_ok = Certsuite.CheckOutcome.ok ∧
      τ.server_ok = Certsuite.CheckOutcome.ok := by
  refine ⟨?_, ?_, ?_, ?_⟩
  · cases hr : σ.root_ok <;>
      simp_all [Certsuite.adb_check_preconditions, Certsuite.sessionChecks,
        Certsuite.evalConj]
  · cases hr : σ.root_ok <;>
      simp_all [Certsuite.adb_check_preconditions, Certsuite.sessionChecks,
        Certsuite.evalConj]
  · cases hr : σ.root_ok <;>
      simp_all [Certsuite.adb_check_preconditions, Certsuite.sessionChecks,
        Certsuite.evalConj]
  · intro τ hτ
    obtain ⟨a, b, c, d, e⟩ := τ
    cases a <;> cases b <;> cases c <;> cases d <;> cases e <;>
      simp_all [Certsuite.adb_check_preconditions, Certsuite.sessionChecks,
        Certsuite.evalConj]

/-- C6 (witness): concrete session whose root check returns falsy. -/
theorem C6_root_failure_stops_pipeline_witness :
    (Certsuite.adb_check_preconditions
        ⟨Certsuite.CheckOutcome.fail, Certsuite.CheckOutcome.ok,
         Certsuite.CheckOutcome.ok, Certsuite.CheckOutcome.ok,
         Certsuite.CheckOutcome.ok⟩).evaluated = [Certsuite.Chk.root] ∧
    (Certsuite.adb_check_preconditions
        ⟨Certsuite.CheckOutcome.fail, Certsuite.CheckOutcome.ok,
         Certsuite.CheckOutcome.ok, Certsuite.CheckOutcome.ok,
         Certsuite.CheckOutcome.ok⟩).reboots = 1 ∧
    (Certsuite.adb_check_preconditions
        ⟨Certsuite.CheckOutcome.fail, Certsuite.CheckOutcome.ok,
         Certsuite.CheckOutcome.ok, Certsuite.CheckOutcome.ok,
         Certsuite.CheckOutcome.ok⟩).exitCode = some 1 ∧
    ∀ τ : Certsuite.Session,
      (Certsuite.adb_check_preconditions τ).exitCode = none →
      τ.root_ok = Certsuite.CheckOutcome.ok ∧
      τ.marionette_ok = Certsuite.CheckOutcome.ok ∧
      τ.settings_ok = Certsuite.CheckOutcome.ok ∧
      τ.network_ok = Certsuite.CheckOutcome.ok ∧
      τ.server_ok = Certsuite.CheckOutcome.ok :=
  C6_root_failure_stops_pipeline
    ⟨Certsuite.CheckOutcome.fail, Certsuite.CheckOutcome.ok,
     Certsuite.CheckOutcome.ok, Certsuite.CheckOutcome.ok,
     Certsuite.CheckOutcome.ok⟩ (by decide)

/-- C2: for every run request with at least two suites whose first
suite's `run_suite` raises, the bare `except:` of the loop (harness.py
lines 434-441) isolates the failure: `run_suite` is still invoked for
every suite, `device.restore()` runs once per suite — in particular
directly after the failed first suite — and `run_tests` returns a
non-zero status. -/
theorem C2_suite_failure_isolated (n0 : String) (e : Certsuite.PyExc)
    (rest : List (String × Certsuite.SuiteOutcome)) (_hrest : rest ≠ []) :
    (∀ p ∈ (n0, Certsuite.SuiteOutcome.raises e) :: rest,
      Certsuite.Ev.runSuiteEv p.1
        ∈ (Certsuite.run_tests none ((n0, Certsuite.SuiteOutcome.raises e) :: rest)).1) ∧
    (Certsuite.run_tests none
        ((n0, Certsuite.SuiteOutcome.raises e) :: rest)).1.count Certsuite.Ev.restoreEv
      = ((n0, Certsuite.SuiteOutcome.raises e) :: rest).length ∧
    (∃ tail, (Certsuite.run_tests none ((n0, Certsuite.SuiteOutcome.raises e) :: rest)).1
      = Certsuite.Ev.runSuiteEv n0 :: Certsuite.Ev.restoreEv :: tail) ∧
    (Certsuite.run_tests none ((n0, Certsuite.SuiteOutcome.raises e) :: rest)).2 ≠ 0 := by
  have htr : (Certsuite.run_tests none
        ((n0, Certsuite.SuiteOutcome.raises e) :: rest)).1
      = ((n0, Certsuite.SuiteOutcome.raises e) :: rest).flatMap
          (fun s => [Certsuite.Ev.runSuiteEv s.1, Certsuite.Ev.restoreEv])
        ++ [Certsuite.Ev.rmtreeEv, Certsuite.Ev.zipFinalizeEv] := by
    simp [Certsuite.run_tests, Certsuite.suite_loop_fst]
  have hcode : (Certsuite.run_tests none
        ((n0, Certsuite.SuiteOutcome.raises e) :: rest)).2 = 1 := by
    simp [Certsuite.run_tests, Certsuite.suite_loop_snd]
  refine ⟨?_, ?_, ?_, ?_⟩
  · intro p hp
    rw [htr]
    refine List.mem_append_left _ ?_
    rw [List.mem_flatMap]
    exact ⟨p, hp, by simp⟩
  · rw [htr, List.count_append]
    simp [Certsuite.count_restore_flatMap]
  · refine ⟨rest.flatMap (fun s => [Certsuite.Ev.runSuiteEv s.1, Certsuite.Ev.restoreEv])
      ++ [Certsuite.Ev.rmtreeEv, Certsuite.Ev.zipFinalizeEv], ?_⟩
    rw [htr]
    simp
  · rw [hcode]
    omega

/-- C2 (witness): two suites, the first raising a generic exception. -/
theorem C2_suite_failure_isolated_witness :
    (∀ p ∈ (("a", Certsuite.SuiteOutcome.raises Certsuite.PyExc.generic)
        :: [("b", Certsuite.SuiteOutcome.passes)]),
      Certsuite.Ev.runSuiteEv p.1
        ∈ (Certsuite.run_tests none
            (("a", Certsuite.SuiteOutcome.raises Certsuite.PyExc.generic)
              :: [("b", Certsuite.SuiteOutcome.passes)])).1) ∧
    (Certsuite.run_tests none
        (("a", Certsuite.SuiteOutcome.raises Certsuite.PyExc.generic)
          :: [("b", Certsuite.SuiteOutcome.passes)])).1.count Certsuite.Ev.restoreEv
      = (("a", Certsuite.SuiteOutcome.raises Certsuite.PyExc.generic)
          :: [("b", Certsuite.SuiteOutcome.passes)]).length ∧
    (∃ tail, (Certsuite.run_tests none
        (("a", Certsuite.SuiteOutcome.raises Certsuite.PyExc.generic)
          :: [("b", Certsuite.SuiteOutcome.passes)])).1
      = Certsuite.Ev.runSuiteEv "a" :: Certsuite.Ev.restoreEv :: tail) ∧
    (Certsuite.run_tests none
        (("a", Certsuite.SuiteOutcome.raises Certsuite.PyExc.generic)
          :: [("b", Certsuite.SuiteOutcome.passes)])).2 ≠ 0 :=
  C2_suite_failure_isolated "a" Certsuite.PyExc.generic
    [("b", Certsuite.SuiteOutcome.passes)] (by decide)

/-- C3: for every run that reaches the suite loop (the precondition
call returned), whatever the suites' outcomes — all passing (normal
completion), a suite raising a generic exception, or a suite raising
`KeyboardInterrupt`/`SystemExit` (all swallowed by the loop's bare
`except:` and thus still followed by both `with`-block exits) — the
aggregate zip artifact is finalized and closed exactly once
(`LogManager.__exit__`, whose nested `try/finally` always reaches
`zip_file.__exit__`) and the snapshot staging directory is deleted
exactly once (`DeviceBackup.__exit__`). -/
theorem C3_cleanup_exactly_once (suites : List (String × Certsuite.SuiteOutcome)) :
    (Certsuite.run_tests none suites).1.count Certsuite.Ev.zipFinalizeEv = 1 ∧
    (Certsuite.run_tests none suites).1.count Certsuite.Ev.rmtreeEv = 1 := by
  have htr : (Certsuite.run_tests none suites).1
      = suites.flatMap
          (fun s => [Certsuite.Ev.runSuiteEv s.1, Certsuite.Ev.restoreEv])
        ++ [Certsuite.Ev.rmtreeEv, Certsuite.Ev.zipFinalizeEv] := by
    simp [Certsuite.run_tests, Certsuite.suite_loop_fst]
  rw [htr]
  have hc := Certsuite.count_cleanup_flatMap suites
  constructor
  · rw [List.count_append, hc.2]
    decide
  · rw [List.count_append, hc.1]
    decide

/-- C8: every call to `DeviceBackup.restore` (both the harness.py and
the adb_device_interface.py variant) first remounts the device
filesystem, then performs only single-file restorations (remove live
copy, push staged copy) for the backed-up files, and only afterwards
performs the directory restorations (recursive remove, push staged
tree): every file restoration strictly precedes every directory
restoration. -/
theorem C8_restore_files_before_dirs (backup_path : String)
    (backup_files backup_dirs : List String) :
    ∃ fs ds : List Certsuite.DevOp,
      Certsuite.harness_restore backup_path backup_files backup_dirs
        = Certsuite.DevOp.remount
            :: (fs ++ ds ++ [Certsuite.DevOp.rebootDev true]) ∧
      Certsuite.adb_restore backup_path backup_files backup_dirs
        = Certsuite.DevOp.remount :: (fs ++ ds) ∧
      (∀ op ∈ fs, Certsuite.isFileRestoreOp op) ∧
      (∀ op ∈ ds, Certsuite.isDirRestoreOp op) := by
  refine ⟨backup_files.flatMap (fun remote =>
      let p := Certsuite.rsplitSlash remote
      [Certsuite.DevOp.rmFile remote,
       Certsuite.DevOp.pushFile
         (Certsuite.local_dir backup_path p.1 ++ "/" ++ p.2) remote]),
    backup_dirs.flatMap (fun remote =>
      [Certsuite.DevOp.rmDirRec remote,
       Certsuite.DevOp.pushDir (Certsuite.local_dir backup_path remote) remote]),
    ?_, ?_, ?_, ?_⟩
  · simp [Certsuite.harness_restore]
  · simp [Certsuite.adb_restore]
  · intro op hop
    rw [List.mem_flatMap] at hop
    obtain ⟨a, _, h⟩ := hop
    simp only [List.mem_cons, List.mem_singleton, List.not_mem_nil, or_false] at h
    rcases h with h | h <;> subst h <;> trivial
  · intro op hop
    rw [List.mem_flatMap] at hop
    obtain ⟨a, _, h⟩ := hop
    simp only [List.mem_cons, List.mem_singleton, List.not_mem_nil, or_false] at h
    rcases h with h | h <;> subst h <;> trivial

/-- C10: the harness.py `DeviceBackup.restore` ends with
`self.device.reboot(wait=True)` — its very last device operation,
after all files and directories are pushed back — so each per-suite
restore includes a full blocking device reboot; the
adb_device_interface.py `DeviceBackup.restore` issues no reboot at
all. -/
theorem C10_harness_restore_reboots (backup_path : String)
    (backup_files backup_dirs : List String) :
    (Certsuite.harness_restore backup_path backup_files backup_dirs).getLast?
      = some (Certsuite.DevOp.rebootDev true) ∧
    ∀ w, Certsuite.DevOp.rebootDev w
      ∉ Certsuite.adb_restore backup_path backup_files backup_dirs := by
  constructor
  · rw [Certsuite.harness_restore, List.getLast?_concat]
  · intro w hw
    simp only [Certsuite.adb_restore, List.mem_append, List.mem_singleton,
      List.mem_flatMap, List.mem_cons, List.not_mem_nil, or_false] at hw
    rcases hw with (h | ⟨a, _, h | h⟩) | ⟨a, _, h | h⟩ <;> simp at h

/-- C7 (counterexample): in an environment where starting the probe
server on port 8000 fails (address in use) but port 8001 would work
and every device-side request would succeed, `check_server` returns
`False` and never even starts a server on the secondary port — there
is no fallback, contradicting the claim that the check can still
succeed. -/
theorem C7_check_server_counterexample :
    (Certsuite.check_server
      ⟨fun p => decide (p = 8001), fun _ => Certsuite.CurlOutcome.ok⟩).2 = false ∧
    Certsuite.SrvEv.serverStarted 8001
      ∉ (Certsuite.check_server
          ⟨fun p => decide (p = 8001), fun _ => Certsuite.CurlOutcome.ok⟩).1 := by
  decide

/-- C7 (amended): if starting the local HTTP probe server on the first
trial port fails (for instance because the address is already in use),
`check_server` fails the check immediately — it returns `False` having
performed no server or device interaction at all, and in particular
never tries the secondary port. -/
theorem C7_no_port_fallback (env : Certsuite.ServerEnv)
    (h : env.start_ok 8000 = false) :
    (Certsuite.check_server env).2 = false ∧
    (Certsuite.check_server env).1 = [] := by
  simp [Certsuite.check_server, Certsuite.check_server_loop, h]

/-- C7 (witness): environment whose server start fails on every
port. -/
theorem C7_no_port_fallback_witness :
    (Certsuite.check_server
      ⟨fun _ => false, fun _ => Certsuite.CurlOutcome.ok⟩).2 = false ∧
    (Certsuite.check_server
      ⟨fun _ => false, fun _ => Certsuite.CurlOutcome.ok⟩).1 = [] :=
  C7_no_port_fallback ⟨fun _ => false, fun _ => Certsuite.CurlOutcome.ok⟩ rfl

/-- C9: `build_command` applied to a suite configured as
`{cmd: "run_x", run_args: ["--out=%(temp_dir)s"], common_args: []}`
with groups `["g1", "g2"]` and any temp directory returns an argument
vector that starts with `run_x` and contains a raw-log path whose
filename (the part after the temp-directory prefix) includes both
`g1` and `g2`, the flags `--include=g1` and `--include=g2`, and
`--out=<temp_dir>` with the actual temp directory substituted. -/
theorem C9_build_command_contents (temp_dir : String) :
    ∃ cmd output_files log_name,
      Certsuite.build_command [] "suite1"
        ⟨"run_x", ["--out=%(temp_dir)s"], [], []⟩ ["g1", "g2"] temp_dir
        = some (cmd, output_files, log_name) ∧
      cmd.head? = some "run_x" ∧
      (∃ fname, ("--log-raw=" ++ (temp_dir ++ "/" ++ fname)) ∈ cmd ∧
        ∃ a b c, fname = a ++ "g1" ++ b ++ "g2" ++ c) ∧
      "--include=g1" ∈ cmd ∧ "--include=g2" ∈ cmd ∧
      ("--out=" ++ temp_dir) ∈ cmd := by
  have hic : "_".intercalate ["g1", "g2"] = "g1_g2" := rfl
  refine ⟨["run_x",
      "--log-raw=" ++ (temp_dir ++ "/" ++ "suite1_structuredg1_g2.log"),
      "--log-mach=-", "--include=g1", "--include=g2", "--out=" ++ temp_dir],
    [temp_dir ++ "/" ++ "suite1_structuredg1_g2.log"],
    temp_dir ++ "/" ++ "suite1_structuredg1_g2.log", ?_, ?_, ?_, ?_, ?_, ?_⟩
  · simp [Certsuite.build_command, Certsuite.pctSubst, Certsuite.pctSubstAux,
      Certsuite.mapMOpt, Certsuite.replaceSlashes, hic, String.append_assoc]
    rfl
  · rfl
  · exact ⟨"suite1_structuredg1_g2.log", by simp,
      "suite1_structured", "_", ".log", by rfl⟩
  · simp
  · simp
  · simp

end Certsuite
